import Mathlib

/-!
Verification development for the CLM-Estimator graph editor
(`src/components/GraphEditor.tsx`).

The file shallowly embeds the core logic of the editor:
* the node/edge data model (`NodeData`, `GNode`, `GEdge`, `GraphState`),
* the six-key rate table (`Rates`, `DEFAULT_RATES`),
* the summary engine (`buildSummary`),
* the persistence codec (`handleSave` / `handleFileChange`),
* the graph-store mutation `addNode` / `createChildNode` and
  `setEdgeComment`,
* the export bounding-box computation of `exportImage`.

JavaScript numbers are modelled as `Int` (all rates, positions and sizes
appearing in the program and its scenarios are integral); an absent or
`undefined`/`null` field is modelled as `Option.none`, and arithmetic on a
possibly-undefined value (which yields `NaN` in JavaScript) is modelled by
`Option` propagation.
-/

namespace CLM

/-- Source `type Difficulty = "simple" | "medium" | "complex"`. -/
inductive Difficulty where
  | simple
  | medium
  | complex
deriving DecidableEq, Repr, Fintype

/-- Source `type YesNo = "yes" | "no"`. -/
inductive YesNo where
  | yes
  | no
deriving DecidableEq, Repr

/-- Source `type CreateType = "new" | "adapt"`. -/
inductive CreateType where
  | new
  | adapt
deriving DecidableEq, Repr

/-- Source `interface NodeData` — label, comment, optional image (a data-URI
string), uploading flag, and the design/coding classification pairs. -/
structure NodeData where
  label : String
  comment : String
  image : Option String
  uploading : YesNo
  designType : CreateType
  designDifficulty : Difficulty
  codingType : CreateType
  codingDifficulty : Difficulty
deriving DecidableEq, Repr

/-- A 2D position `{ x: number; y: number }`. -/
structure Pos where
  x : Int
  y : Int
deriving DecidableEq, Repr

/-- A live React-Flow node as the editor holds it in state: id, the
node-kind tag (`type`, absent until assigned), position, data record, and
the rendering-surface-measured `width`/`height` (absent until measured). -/
structure GNode where
  id : String
  type : Option String
  position : Pos
  data : NodeData
  width : Option Int
  height : Option Int
deriving DecidableEq, Repr

/-- A live edge: id, endpoints, edge-kind tag (`type`), the comment stored
under `data.comment`, and the display `label`. -/
structure GEdge where
  id : String
  source : String
  target : String
  type : Option String
  comment : Option String
  label : Option String
deriving DecidableEq, Repr

/-- The six fixed work-type keys `"<Phase>-<difficulty>"`: `design d`
stands for `"Design-<d>"` and `coding d` for `"Coding-<d>"`. -/
inductive WorkType where
  | design (d : Difficulty)
  | coding (d : Difficulty)
deriving DecidableEq, Repr, Fintype

/-- The constant `WORK_TYPES` — the fixed declaration order of the six keys. -/
def WORK_TYPES : List WorkType :=
  [.design .simple, .design .medium, .design .complex,
   .coding .simple, .coding .medium, .coding .complex]

/-- The rate table `Record<string, number>` restricted to the six fixed
work-type keys; a key that is absent from the JavaScript object is a
`none` field. -/
structure Rates where
  designSimple : Option Int
  designMedium : Option Int
  designComplex : Option Int
  codingSimple : Option Int
  codingMedium : Option Int
  codingComplex : Option Int
deriving DecidableEq, Repr

/-- Key lookup `rates[wt]`; `none` models JavaScript `undefined`. -/
def ratesGet (r : Rates) : WorkType → Option Int
  | .design .simple => r.designSimple
  | .design .medium => r.designMedium
  | .design .complex => r.designComplex
  | .coding .simple => r.codingSimple
  | .coding .medium => r.codingMedium
  | .coding .complex => r.codingComplex

/-- The `DEFAULT_RATES` constant from the source. -/
def DEFAULT_RATES : Rates :=
  { designSimple := some 100
    designMedium := some 200
    designComplex := some 300
    codingSimple := some 150
    codingMedium := some 300
    codingComplex := some 450 }

/-- The graph state of the editor: the `nodes`, `edges` and `rates` React
state variables. -/
structure GraphState where
  nodes : List GNode
  edges : List GEdge
  rates : Rates
deriving DecidableEq, Repr

/-- A node record of the persisted document: `handleSave` writes
`{ id, position, data }`; a foreign document may additionally carry a
`type`/`width`/`height` field, which the object spread of the load keeps. -/
structure RawNode where
  id : String
  position : Pos
  data : NodeData
  type : Option String
  width : Option Int
  height : Option Int
deriving DecidableEq, Repr

/-- An edge record of the persisted document (`PersistEdge`):
`{ id, source, target, type?, data?: { comment? }, label? }`. -/
structure RawEdge where
  id : String
  source : String
  target : String
  type : Option String
  comment : Option String
  label : Option String
deriving DecidableEq, Repr

/-- Source `interface PersistFile` — the parsed JSON document.  `rates` is
`Option` because `handleFileChange` guards it with
`data.rates || DEFAULT_RATES`. -/
structure PersistFile where
  nodes : List RawNode
  edges : List RawEdge
  rates : Option Rates
deriving DecidableEq, Repr

/-! ### Persistence codec -/

/-- The `handleSave` node projection:
`nodes.map(({ id, position, data }) => ({ id, position, data }))`. -/
def serializeNode (n : GNode) : RawNode :=
  { id := n.id, position := n.position, data := n.data,
    type := none, width := none, height := none }

/-- The `handleSave` edge projection:
`edges.map(({ id, source, target, type }) => ({ id, source, target, type }))`
(`JSON.stringify` drops a key whose value is `undefined`, so an absent
live `type` stays absent in the document). -/
def serializeEdge (e : GEdge) : RawEdge :=
  { id := e.id, source := e.source, target := e.target, type := e.type,
    comment := none, label := none }

/-- The function `handleSave` — the full payload `{ nodes, edges, rates }`. -/
def handleSave (s : GraphState) : PersistFile :=
  { nodes := s.nodes.map serializeNode,
    edges := s.edges.map serializeEdge,
    rates := some s.rates }

/-- Node enrichment on load: `{ type: "graphNode", ...n }` — the spread
comes second, so a `type` present in the record overrides the
`"graphNode"` default. -/
def loadNode (n : RawNode) : GNode :=
  { id := n.id, type := some (n.type.getD "graphNode"),
    position := n.position, data := n.data,
    width := n.width, height := n.height }

/-- Edge enrichment on load: `{ ...e, type: e.type ?? "smoothstep" }`. -/
def loadEdge (e : RawEdge) : GEdge :=
  { id := e.id, source := e.source, target := e.target,
    type := some (e.type.getD "smoothstep"),
    comment := e.comment, label := e.label }

/-- The state produced by a successful load:
`setNodes(enrichedNodes); setEdges(enrichedEdges);
setRates(data.rates || DEFAULT_RATES)`. -/
def loadState (d : PersistFile) : GraphState :=
  { nodes := d.nodes.map loadNode,
    edges := d.edges.map loadEdge,
    rates := d.rates.getD DEFAULT_RATES }

/-- The `handleFileChange` body: the argument `parsed` is the outcome of
`JSON.parse` (`none` when the payload is not syntactically valid JSON, in
which case the `catch` only logs and every state setter is skipped).  On
success the id counter is reset to `data.nodes.length + 1`.  Returns the
new `(state, idCounter)` pair. -/
def handleFileChange (parsed : Option PersistFile) (s : GraphState)
    (idCounter : Nat) : GraphState × Nat :=
  match parsed with
  | none => (s, idCounter)
  | some d => (loadState d, d.nodes.length + 1)

/-! ### Summary engine -/

/-- Source `interface SummaryRow { work; rate; qty; sum }`.  `rate` is
`rates[wt]` (possibly `undefined`), and `sum = counts[wt] * rates[wt]`
(`NaN`, i.e. `none`, when the rate is `undefined`). -/
structure SummaryRow where
  work : WorkType
  rate : Option Int
  qty : Nat
  sum : Option Int
deriving DecidableEq, Repr

/-- The filter test `!filter || t === filter` of `buildSummary`. -/
def passes (filter : Option CreateType) (t : CreateType) : Bool :=
  match filter with
  | none => true
  | some f => t == f

/-- The increment `counts[k] += 1` on a counts table. -/
def bump (c : WorkType → Nat) (k : WorkType) : WorkType → Nat :=
  fun k2 => if k2 = k then c k2 + 1 else c k2

/-- The body of the `forEach` loop of `buildSummary`: the data of one node bumps the
`Design-<difficulty>` bucket when its design type passes the filter and,
independently, the `Coding-<difficulty>` bucket when its coding type
passes. -/
def stepNode (filter : Option CreateType) (c : WorkType → Nat)
    (d : NodeData) : WorkType → Nat :=
  let c1 := if passes filter d.designType
            then bump c (.design d.designDifficulty) else c
  if passes filter d.codingType
  then bump c1 (.coding d.codingDifficulty) else c1

/-- The `counts` record after the `forEach` loop of `buildSummary` (all six
buckets start at `0`). -/
def countsFor (ns : List GNode) (filter : Option CreateType) :
    WorkType → Nat :=
  ns.foldl (fun c n => stepNode filter c n.data) (fun _ => 0)

/-- The function `buildSummary(nodes, rates, filter)` — one row per work type in
`WORK_TYPES` order. -/
def buildSummary (ns : List GNode) (rates : Rates)
    (filter : Option CreateType) : List SummaryRow :=
  let counts := countsFor ns filter
  WORK_TYPES.map fun wt =>
    { work := wt, rate := ratesGet rates wt, qty := counts wt,
      sum := (ratesGet rates wt).map fun r => (counts wt : Int) * r }

/-- The grand total of `SummaryTable`, `rows.reduce((a, r) => a + r.sum, 0)`;
adding an undefined (`NaN`) sum poisons the total, modelled by `Option`
bind. -/
def grandTotal (rows : List SummaryRow) : Option Int :=
  rows.foldl (fun a r => a.bind fun av => r.sum.map fun sv => av + sv)
    (some 0)

/-! ### Graph-store mutations -/

/-- The helper `createChildNode(parent, id, offsetY)` — same x, `y + offsetY`,
re-tagged `"graphNode"`, default data with generated label
`` `Node ${id}` ``. -/
def createChildNode (parent : GNode) (id : String) (offsetY : Int) :
    GNode :=
  { id := id, type := some "graphNode",
    position := { x := parent.position.x, y := parent.position.y + offsetY },
    data :=
      { label := "Node " ++ id, comment := "", image := none,
        uploading := .no, designType := .new, designDifficulty := .simple,
        codingType := .new, codingDifficulty := .simple },
    width := none, height := none }

/-- The mutation `addNode` — the parent is `selectedNode ?? nodes[0]`, passed here
explicitly; the fresh id is the current counter value rendered as a
string (`` `${idCounter.current++}` ``).  Appends the child node (default
offset 150) and one `"smoothstep"` edge `parent → child` with id
`` `e${parent.id}-${newId}` ``; returns the new state and incremented
counter. -/
def addNode (parent : GNode) (s : GraphState) (idCounter : Nat) :
    GraphState × Nat :=
  let newId := toString idCounter
  let newNode := createChildNode parent newId 150
  ({ nodes := s.nodes ++ [newNode],
     edges := s.edges ++
       [{ id := "e" ++ parent.id ++ "-" ++ newId, source := parent.id,
          target := newId, type := some "smoothstep",
          comment := none, label := none }],
     rates := s.rates },
   idCounter + 1)

/-- The save handler of the edge-comment dialog:
`eds.map((e) => e.id === selectedEdge
  ? { ...e, data: { ...e.data, comment }, label: comment } : e)`. -/
def setEdgeComment (edgeId : String) (txt : String)
    (edges : List GEdge) : List GEdge :=
  edges.map fun e =>
    if e.id = edgeId then { e with comment := some txt, label := some txt }
    else e

/-! ### Export geometry -/

/-- The padded-export bounding box over the node position-to-
position+size rectangles. -/
structure BBox where
  minX : Int
  minY : Int
  maxX : Int
  maxY : Int
deriving DecidableEq, Repr

/-- One step of the `reduce` of `exportImage`: a node with effective size
`(width ?? 250, height ?? 150)` widens the box.  The `Infinity`-seeded
empty accumulator is modelled as `none` (for a nonempty list the two are
pointwise equal, since `Math.min(Infinity, x) = x`). -/
def bboxStep (acc : Option BBox) (n : GNode) : Option BBox :=
  let w := n.width.getD 250
  let h := n.height.getD 150
  match acc with
  | none =>
      some { minX := n.position.x, minY := n.position.y,
             maxX := n.position.x + w, maxY := n.position.y + h }
  | some b =>
      some { minX := min b.minX n.position.x,
             minY := min b.minY n.position.y,
             maxX := max b.maxX (n.position.x + w),
             maxY := max b.maxY (n.position.y + h) }

/-- The bounding box `b` computed by `exportImage`. -/
def computeBounds (ns : List GNode) : Option BBox :=
  ns.foldl bboxStep none

/-- The constant `const PAD = 64`. -/
def PAD : Int := 64

/-- The padded dimensions `fullW = b.maxX - b.minX + PAD * 2` and the matching `fullH`. -/
def exportSize (b : BBox) : Int × Int :=
  (b.maxX - b.minX + PAD * 2, b.maxY - b.minY + PAD * 2)

/-- The closed-form count `contrib filter d wt` — the number of times one node with data `d`
bumps bucket `wt` under `filter` (0, 1 or 2); the closed form of
the effect of `stepNode` on a single bucket. -/
def contrib (filter : Option CreateType) (d : NodeData) (wt : WorkType) :
    Nat :=
  (if passes filter d.designType ∧ wt = .design d.designDifficulty
   then 1 else 0) +
  (if passes filter d.codingType ∧ wt = .coding d.codingDifficulty
   then 1 else 0)

/-- The scrubber `clearUploading` — the node with its `uploading` flag normalized;
two node lists are "equal except for the uploading field" exactly when
their `clearUploading` images are equal. -/
def clearUploading (n : GNode) : GNode :=
  { n with data := { n.data with uploading := .no } }

/-- Decimal parse of a string: `some` its value when it is a nonempty
digit string, else `none` (kernel-evaluable counterpart of
`String.toNat?`). -/
def strToNat (s : String) : Option Nat :=
  if s.data ≠ [] ∧ s.data.all Char.isDigit
  then some (s.data.foldl (fun n c => n * 10 + (c.toNat - 48)) 0)
  else none

/-- The invariant measure of the spec for identifier allocation: the largest
numeric id among the nodes (a non-numeric id counts as 0). -/
def maxNumericId (ns : List GNode) : Nat :=
  ns.foldl (fun m n => max m ((strToNat n.id).getD 0)) 0

/-! ### Concrete fixtures for scenarios, witnesses and counterexamples -/

/-- The default data record of node `"1"` (as `createChildNode` builds
it). -/
def sampleData : NodeData :=
  { label := "Node 1", comment := "", image := none, uploading := .no,
    designType := .new, designDifficulty := .simple,
    codingType := .new, codingDifficulty := .simple }

/-- A loaded-looking node `"1"` at the origin. -/
def rtNode : GNode :=
  { id := "1", type := some "graphNode", position := { x := 0, y := 0 },
    data := sampleData, width := none, height := none }

/-- A state whose single edge carries a comment and label (as the
edge-comment dialog produces); rates are fully specified and the edge
endpoints exist. -/
def rtState : GraphState :=
  { nodes := [rtNode],
    edges := [{ id := "e1", source := "1", target := "1",
                type := some "smoothstep", comment := some "hi",
                label := some "hi" }],
    rates := DEFAULT_RATES }

/-- Like `rtState` but with no edge comment or label. -/
def rtGood : GraphState :=
  { nodes := [rtNode],
    edges := [{ id := "e1", source := "1", target := "1",
                type := some "smoothstep", comment := none,
                label := none }],
    rates := DEFAULT_RATES }

/-- A document with two nodes whose ids are the sparse numerals `"1"`
and `"3"`. -/
def c3Doc : PersistFile :=
  { nodes :=
      [{ id := "1", position := { x := 0, y := 0 }, data := sampleData,
         type := none, width := none, height := none },
       { id := "3", position := { x := 0, y := 100 }, data := sampleData,
         type := none, width := none, height := none }],
    edges := [], rates := some DEFAULT_RATES }

/-- An arbitrary prior editor state for load scenarios. -/
def c3Prior : GraphState :=
  { nodes := [], edges := [], rates := DEFAULT_RATES }

/-- The loaded `(state, idCounter)` pair after loading `c3Doc`. -/
def c3Loaded : GraphState × Nat := handleFileChange (some c3Doc) c3Prior 2

/-- The first loaded node of `c3Doc` — the parent `nodes[0]` that
`addNode` uses when nothing is selected. -/
def c3Parent : GNode :=
  loadNode { id := "1", position := { x := 0, y := 0 }, data := sampleData,
             type := none, width := none, height := none }

/-- A rate table carrying only the `Design-simple` key. -/
def sparseRates : Rates :=
  { designSimple := some 5, designMedium := none, designComplex := none,
    codingSimple := none, codingMedium := none, codingComplex := none }

/-- A document whose `rates` object is present but omits five of the six
keys. -/
def c4Doc : PersistFile := { nodes := [], edges := [], rates := some sparseRates }

/-- A document with no `rates` key at all. -/
def c4NoRatesDoc : PersistFile := { nodes := [], edges := [], rates := none }

/-- A document whose single node record carries its own `type` field. -/
def c5Doc : PersistFile :=
  { nodes :=
      [{ id := "1", position := { x := 0, y := 0 }, data := sampleData,
         type := some "plain", width := none, height := none }],
    edges :=
      [{ id := "e1", source := "1", target := "1", type := none,
         comment := none, label := none }],
    rates := none }

/-- Export scenario: node at `(0, 0)` with measured size `(220, 150)`. -/
def exportNodeA : GNode :=
  { id := "1", type := some "graphNode", position := { x := 0, y := 0 },
    data := sampleData, width := some 220, height := some 150 }

/-- Export scenario: node at `(0, 300)` with measured size
`(220, 150)`. -/
def exportNodeB : GNode :=
  { id := "2", type := some "graphNode", position := { x := 0, y := 300 },
    data := sampleData, width := some 220, height := some 150 }

/-- A parent node at `(100, 50)` for the `addNode` scenario. -/
def c8Parent : GNode :=
  { id := "2", type := some "graphNode",
    position := { x := 100, y := 50 }, data := sampleData,
    width := none, height := none }

/-- A one-node state owning `c8Parent`. -/
def c8State : GraphState :=
  { nodes := [c8Parent], edges := [], rates := DEFAULT_RATES }

/-- A node with `uploading = yes` and mixed classifications. -/
def c9NodeYes : GNode :=
  { id := "1", type := some "graphNode", position := { x := 0, y := 0 },
    data := { label := "a", comment := "", image := none, uploading := .yes,
              designType := .new, designDifficulty := .simple,
              codingType := .adapt, codingDifficulty := .medium },
    width := none, height := none }

/-- Fixture `c9NodeYes` with `uploading = no` and everything else identical. -/
def c9NodeNo : GNode :=
  { id := "1", type := some "graphNode", position := { x := 0, y := 0 },
    data := { label := "a", comment := "", image := none, uploading := .no,
              designType := .new, designDifficulty := .simple,
              codingType := .adapt, codingDifficulty := .medium },
    width := none, height := none }

/-! ### Summary-engine lemmas -/

theorem stepNode_apply (f : Option CreateType) (c : WorkType → Nat)
    (d : NodeData) (wt : WorkType) :
    stepNode f c d wt = c wt + contrib f d wt := by
  unfold stepNode contrib bump
  cases hd : passes f d.designType <;> cases hc : passes f d.codingType <;>
    simp <;> split_ifs <;> omega

theorem countsFor_foldl (f : Option CreateType) (ns : List GNode)
    (c : WorkType → Nat) (wt : WorkType) :
    (ns.foldl (fun c n => stepNode f c n.data) c) wt
      = c wt + (ns.map fun n => contrib f n.data wt).sum := by
  induction ns generalizing c with
  | nil => simp
  | cons n t ih =>
      rw [List.foldl_cons, ih, stepNode_apply]
      simp
      omega

theorem countsFor_eq_sum (ns : List GNode) (f : Option CreateType)
    (wt : WorkType) :
    countsFor ns f wt = (ns.map fun n => contrib f n.data wt).sum := by
  unfold countsFor
  rw [countsFor_foldl]
  omega

theorem contrib_partition (d : NodeData) (wt : WorkType) :
    contrib none d wt
      = contrib (some .new) d wt + contrib (some .adapt) d wt := by
  rcases d with ⟨l, co, im, up, dt, dd, ct, cd⟩
  cases dt <;> cases ct <;>
    · simp only [contrib, passes]
      split_ifs <;> simp_all

theorem counts_partition (ns : List GNode) (wt : WorkType) :
    countsFor ns none wt
      = countsFor ns (some .new) wt + countsFor ns (some .adapt) wt := by
  rw [countsFor_eq_sum, countsFor_eq_sum, countsFor_eq_sum]
  induction ns with
  | nil => simp
  | cons n t ih => simp [ih, contrib_partition]; omega

/-- C2: for every node list and rate table, the per-bucket quantity
reported by `buildSummary` with no filter equals, bucket by bucket, the
sum of the quantities reported under the `"new"` filter and under the
`"adapt"` filter — the filter partitions node contributions within a
phase, never double-counting or dropping any. -/
theorem buildSummary_filter_partition (ns : List GNode) (r : Rates) :
    (buildSummary ns r none).map (fun row => row.qty)
      = List.zipWith (fun a b => a.qty + b.qty)
          (buildSummary ns r (some .new))
          (buildSummary ns r (some .adapt)) := by
  simp [buildSummary, WORK_TYPES, counts_partition]

/-- C6: when `JSON.parse` fails on the payload (modelled by a `none`
parse outcome), `handleFileChange` leaves the prior nodes, edges and
rates completely unchanged, and the id counter too. -/
theorem load_parse_failure_atomic (s : GraphState) (idc : Nat) :
    (handleFileChange none s idc).1.nodes = s.nodes ∧
    (handleFileChange none s idc).1.edges = s.edges ∧
    (handleFileChange none s idc).1.rates = s.rates ∧
    (handleFileChange none s idc).2 = idc :=
  ⟨rfl, rfl, rfl, rfl⟩

/-- C7: over the two-node list with positions `(0,0)` and `(0,300)` and
measured sizes `(220,150)`, the reduce of `exportImage` computes the bounding
box `(minX, minY, maxX, maxY) = (0, 0, 220, 450)`, and with `PAD = 64`
the padded export dimensions are width `348` and height `578`. -/
theorem export_bbox_scenario :
    computeBounds [exportNodeA, exportNodeB]
        = some { minX := 0, minY := 0, maxX := 220, maxY := 450 } ∧
    (computeBounds [exportNodeA, exportNodeB]).map exportSize
        = some (348, 578) := by
  constructor <;> rfl

/-- C10: `handleSave` projects every edge to exactly
`{ id, source, target, type }` — the persisted edge records carry no
comment and no label, even after `setEdgeComment` stamped a comment and
label onto an edge. -/
theorem save_edge_projection (s : GraphState) (edgeId txt : String) :
    ((handleSave s).edges = s.edges.map fun e =>
        { id := e.id, source := e.source, target := e.target,
          type := e.type, comment := none, label := none }) ∧
    (∀ re ∈ (handleSave
        { s with edges := setEdgeComment edgeId txt s.edges }).edges,
      re.comment = none ∧ re.label = none) := by
  refine ⟨rfl, ?_⟩
  intro re hre
  simp only [handleSave, List.mem_map] at hre
  rcases hre with ⟨e, _, rfl⟩
  exact ⟨rfl, rfl⟩

/-! ### Persistence-codec theorems -/

theorem list_map_self {α : Type} (l : List α) (f : α → α)
    (h : ∀ x ∈ l, f x = x) : l.map f = l := by
  induction l with
  | nil => rfl
  | cons a t ih =>
      rw [List.map_cons, h a (List.mem_cons_self a t),
        ih fun x hx => h x (List.mem_cons_of_mem a hx)]

/-- C1 counterexample: `rtState` has a fully-specified rate table and no
dangling edges, yet `loadState (handleSave rtState) ≠ rtState` — the
comment and label of its edge are dropped by serialization, so the round trip
of the claim fails as stated. -/
theorem roundTrip_cex :
    (∀ wt ∈ WORK_TYPES, (ratesGet rtState.rates wt).isSome) ∧
    (∀ e ∈ rtState.edges, e.source ∈ rtState.nodes.map GNode.id ∧
       e.target ∈ rtState.nodes.map GNode.id) ∧
    loadState (handleSave rtState) ≠ rtState := by
  refine ⟨by decide, by decide, by decide⟩

/-- C1 (amended): the round trip `loadState ∘ handleSave` is the
identity on every state with a fully-specified rate table and no
dangling edges whose nodes are tagged `"graphNode"` and carry no
measured size, and whose edges carry an explicit kind and no comment or
label — serialization drops edge comments/labels, node kind tags and
measured sizes, so only these states round-trip exactly. -/
theorem roundTrip_restricted (s : GraphState)
    (hr : ∀ wt ∈ WORK_TYPES, (ratesGet s.rates wt).isSome)
    (hn : ∀ n ∈ s.nodes, n.type = some "graphNode" ∧
       n.width = none ∧ n.height = none)
    (he : ∀ e ∈ s.edges, e.type.isSome ∧ e.comment = none ∧
       e.label = none)
    (hd : ∀ e ∈ s.edges, e.source ∈ s.nodes.map GNode.id ∧
       e.target ∈ s.nodes.map GNode.id) :
    loadState (handleSave s) = s := by
  rcases s with ⟨ns, es, rs⟩
  simp only [handleSave, loadState, List.map_map, Option.getD_some]
  refine congrArg₂ (GraphState.mk · · rs) ?_ ?_
  · refine list_map_self ns _ fun n hn2 => ?_
    rcases hn n hn2 with ⟨ht, hw, hh⟩
    rcases n with ⟨i, ty, p, da, w, h⟩
    simp only [Function.comp_apply, loadNode, serializeNode,
      Option.getD_none]
    simp_all
  · refine list_map_self es _ fun e he2 => ?_
    rcases he e he2 with ⟨ht, hc, hl⟩
    rcases e with ⟨i, so, ta, ty, c, l⟩
    rcases Option.isSome_iff_exists.mp ht with ⟨t, rfl⟩
    simp_all [Function.comp_apply, loadEdge, serializeEdge]

/-- C1 witness: the amended round trip at the concrete state
`rtGood`. -/
theorem roundTrip_restricted_witness :
    loadState (handleSave rtGood) = rtGood :=
  roundTrip_restricted rtGood (by decide) (by decide) (by decide)
    (by decide)

/-- C5 counterexample: loading `c5Doc`, whose node record carries its
own `type` field `"plain"`, does not re-tag that node with
`"graphNode"` — the object spread of the load lets the kind field of
the document override the default. -/
theorem load_retag_cex :
    ¬ (∀ n ∈ (loadState c5Doc).nodes, n.type = some "graphNode") := by
  decide

/-- C5 (amended): on load, every node whose document record has no kind
field is tagged `"graphNode"` (a kind present in the record is kept
instead), and every edge whose kind field is absent is assigned
`"smoothstep"` (a present edge kind is kept). -/
theorem load_normalization (d : PersistFile) :
    (loadState d).nodes.map GNode.type
        = d.nodes.map (fun n => some (n.type.getD "graphNode")) ∧
    (loadState d).edges.map GEdge.type
        = d.edges.map (fun e => some (e.type.getD "smoothstep")) := by
  constructor <;> simp [loadState, loadNode, loadEdge]

/-- C4 counterexample: loading `c4Doc`, whose rate table is present but
carries only the `Design-simple` key, does not give every one of the six
work-type keys a numeric rate — `data.rates || DEFAULT_RATES` keeps the
sparse table as is, so `Coding-simple` (among others) has no rate after
the load. -/
theorem rates_defaulting_cex :
    ¬ (∀ wt ∈ WORK_TYPES, (ratesGet (loadState c4Doc).rates wt).isSome)
      := by
  decide

/-- C4 (amended): the rate fallback is whole-table, not per-key — when
the `rates` field of the document is absent the entire fixed default table is
used (so all six keys are numeric and the load succeeds), and when a
`rates` object is present it is taken verbatim, missing keys staying
missing. -/
theorem rates_whole_table_fallback :
    (∀ d : PersistFile, d.rates = none →
       (loadState d).rates = DEFAULT_RATES ∧
       ∀ wt ∈ WORK_TYPES, (ratesGet (loadState d).rates wt).isSome) ∧
    (∀ (d : PersistFile) (rt : Rates), d.rates = some rt →
       (loadState d).rates = rt) := by
  constructor
  · intro d hd
    have hrt : (loadState d).rates = DEFAULT_RATES := by
      simp [loadState, hd]
    refine ⟨hrt, ?_⟩
    rw [hrt]
    decide
  · intro d rt h
    simp [loadState, h]

/-- C4 witness: the whole-table fallback at the concrete documents
`c4NoRatesDoc` (no `rates` field — all defaults) and `c4Doc` (sparse
`rates` — taken verbatim). -/
theorem rates_whole_table_fallback_witness :
    ((loadState c4NoRatesDoc).rates = DEFAULT_RATES ∧
     ∀ wt ∈ WORK_TYPES,
       (ratesGet (loadState c4NoRatesDoc).rates wt).isSome) ∧
    (loadState c4Doc).rates = sparseRates :=
  ⟨rates_whole_table_fallback.1 c4NoRatesDoc rfl,
   rates_whole_table_fallback.2 c4Doc sparseRates rfl⟩

/-! ### Identifier allocation -/

/-- C3: the code seeds the id counter with `data.nodes.length + 1`, not
with the maximum numeric id — loading `c3Doc` (node ids `"1"` and
`"3"`) leaves the counter at `3`, which does not exceed the maximum
numeric id `3`, and the next `addNode` then creates a node whose id
`"3"` duplicates the id of an existing node.  This evaluates the code
at the failing input; the invariant `nextId > max(existing numeric
ids)` of the claim is the stated intent of the spec. -/
theorem idCounter_seed_bug :
    c3Loaded.2 = 3 ∧
    maxNumericId c3Loaded.1.nodes = 3 ∧
    ¬ c3Loaded.2 > maxNumericId c3Loaded.1.nodes ∧
    ¬ ((addNode c3Parent c3Loaded.1 c3Loaded.2).1.nodes.map
        GNode.id).Nodup := by
  refine ⟨by decide, by decide, by decide, by decide⟩

/-! ### Graph-store theorems -/

/-- C8: adding a node with fresh id `"5"` under a parent at `(100, 50)`
appends exactly one node — id `"5"`, position `(100, 200)`, tagged
`"graphNode"`, with the generated label `"Node 5"`, no image,
`uploading = no` and design/coding both `{new, simple}` — and exactly
one `"smoothstep"` edge from the parent to `"5"`; all pre-existing
nodes, edges and the rates are unchanged, and the counter moves to 6. -/
theorem addNode_scenario (parent : GNode) (s : GraphState)
    (hp : parent.position = { x := 100, y := 50 }) :
    (addNode parent s 5).1.nodes
        = s.nodes ++
          [{ id := "5", type := some "graphNode",
             position := { x := 100, y := 200 },
             data := { label := "Node 5", comment := "", image := none,
                       uploading := .no, designType := .new,
                       designDifficulty := .simple, codingType := .new,
                       codingDifficulty := .simple },
             width := none, height := none }] ∧
    (addNode parent s 5).1.edges
        = s.edges ++
          [{ id := "e" ++ parent.id ++ "-" ++ "5", source := parent.id,
             target := "5", type := some "smoothstep",
             comment := none, label := none }] ∧
    (addNode parent s 5).1.rates = s.rates ∧
    (addNode parent s 5).2 = 6 := by
  have h5 : toString (5 : Nat) = "5" := rfl
  refine ⟨?_, ?_, rfl, rfl⟩
  · simp only [addNode, createChildNode, h5, hp]
    exact congrArg (s.nodes ++ ·) (by decide)
  · simp only [addNode, h5]

/-- C8 witness: the `addNode` scenario at the concrete parent
`c8Parent` (at `(100, 50)`) inside the one-node state `c8State`. -/
theorem addNode_scenario_witness :
    (addNode c8Parent c8State 5).1.nodes
        = c8State.nodes ++
          [{ id := "5", type := some "graphNode",
             position := { x := 100, y := 200 },
             data := { label := "Node 5", comment := "", image := none,
                       uploading := .no, designType := .new,
                       designDifficulty := .simple, codingType := .new,
                       codingDifficulty := .simple },
             width := none, height := none }] ∧
    (addNode c8Parent c8State 5).1.edges
        = c8State.edges ++
          [{ id := "e" ++ c8Parent.id ++ "-" ++ "5",
             source := c8Parent.id, target := "5",
             type := some "smoothstep", comment := none,
             label := none }] ∧
    (addNode c8Parent c8State 5).1.rates = c8State.rates ∧
    (addNode c8Parent c8State 5).2 = 6 :=
  addNode_scenario c8Parent c8State rfl

/-! ### Uploading-flag noninterference -/

/-- C9: `buildSummary` never reads the `uploading` flag — for any two
node lists equal except for the `uploading` field of each node, and for
rate table and every filter (`null`, `"new"` or `"adapt"`), it returns
identical rows, and the grand total is identical too. -/
theorem uploading_noninterference (ns1 ns2 : List GNode) (r : Rates)
    (f : Option CreateType)
    (h : ns1.map clearUploading = ns2.map clearUploading) :
    buildSummary ns1 r f = buildSummary ns2 r f ∧
    grandTotal (buildSummary ns1 r f)
      = grandTotal (buildSummary ns2 r f) := by
  have key : ∀ ns : List GNode,
      countsFor ns f = countsFor (ns.map clearUploading) f := by
    intro ns
    unfold countsFor
    rw [List.foldl_map]
    rfl
  have hb : buildSummary ns1 r f = buildSummary ns2 r f := by
    unfold buildSummary
    rw [key ns1, h, ← key ns2]
  exact ⟨hb, by rw [hb]⟩

/-- C9 witness: the one-node lists `[c9NodeYes]` and `[c9NodeNo]`,
differing only in the uploading flag, get identical summaries and
totals. -/
theorem uploading_noninterference_witness :
    buildSummary [c9NodeYes] DEFAULT_RATES none
        = buildSummary [c9NodeNo] DEFAULT_RATES none ∧
    grandTotal (buildSummary [c9NodeYes] DEFAULT_RATES none)
        = grandTotal (buildSummary [c9NodeNo] DEFAULT_RATES none) :=
  uploading_noninterference [c9NodeYes] [c9NodeNo] DEFAULT_RATES none
    (by decide)

end CLM
